import Mathlib

/-!
Shallow embedding of the meal-logging backend (src/backend/app.py):
the intent-normalization and confirmation state machine, the food
resolver, the date resolver, and the log/food update endpoints.

Request payload values are modelled by the inductive type `JVal`
(JSON-ish values: null, integers, strings, booleans).  A Python dict
field that may be absent is an `Option JVal`; `Option.getD` models
`dict.get(key, default)` and `pyGet` models `dict.get(key)` (absent
maps to `None`).  Python exceptions that escape a handler are modelled
by an `Option` result being `none`.  Floats are not modelled: no
checked property depends on them.  SQLite state is a `DB` record of
food rows and meal-log rows; a fallible insert is modelled by an
explicit success flag.
-/

namespace MealWhisperer

/-- JSON-ish Python values appearing in request payloads. -/
inductive JVal where
  | null
  | int (n : Int)
  | str (s : String)
  | bool (b : Bool)
deriving DecidableEq

/-- Python truthiness of a modelled value. -/
def JVal.truthy : JVal → Bool
  | .null => false
  | .int n => n != 0
  | .str s => s != ""
  | .bool b => b

/-- Python `str(v)` on a modelled value. -/
def pyStr : JVal → String
  | .null => "None"
  | .int n => toString n
  | .str s => s
  | .bool b => if b then "True" else "False"

/-- Whitespace as stripped by Python `str.strip` / `int`. -/
def pyIsSpace (c : Char) : Bool :=
  c == ' ' || c == '\t' || c == '\n' || c == '\r' || c == '\x0b' || c == '\x0c'

/-- Python `str.strip()` (character-list implementation, so that proofs
can evaluate it). -/
def strTrim (s : String) : String :=
  ⟨((s.data.dropWhile pyIsSpace).reverse.dropWhile pyIsSpace).reverse⟩

/-- Python `str.lower()` (ASCII range, character-list implementation). -/
def strToLower (s : String) : String :=
  ⟨s.data.map Char.toLower⟩

/-- Parse a non-empty all-digit character list as a natural number. -/
def listToNat? (cs : List Char) : Option Nat :=
  if cs ≠ [] ∧ cs.all Char.isDigit then
    some (cs.foldl (fun a c => a * 10 + (c.toNat - 48)) 0)
  else none

/-- Python `int(s)` on a string: strips whitespace, allows an optional
sign and then digits, otherwise fails (`ValueError`). -/
def pyStrToInt (s : String) : Option Int :=
  match (strTrim s).data with
  | '-' :: rest => (listToNat? rest).map (fun n => -(n : Int))
  | '+' :: rest => (listToNat? rest).map (fun n => (n : Int))
  | other => (listToNat? other).map (fun n => (n : Int))

/-- Python `int(v)`: `some` is the converted integer, `none` means the
conversion raises (`TypeError` on `None`, `ValueError` on a bad string). -/
def JVal.toIntCoerce : JVal → Option Int
  | .null => none
  | .int n => some n
  | .str s => pyStrToInt s
  | .bool b => some (if b then 1 else 0)

/-- `dict.get(key)`: an absent field reads as Python `None`. -/
def pyGet (o : Option JVal) : JVal :=
  o.getD .null

/-- Python `a > b` where `b` is an int: defined for ints and bools,
raises `TypeError` (modelled as `none`) for strings and `None`. -/
def pyGtInt : JVal → Int → Option Bool
  | .int n, m => some (decide (m < n))
  | .bool b, m => some (decide (m < (if b then (1 : Int) else 0)))
  | _, _ => none

/-! ## Dates (`datetime.date`) -/

/-- A calendar date as in the Python `datetime.date` type. -/
structure PyDate where
  year : Nat
  month : Nat
  day : Nat
deriving DecidableEq

def isLeap (y : Nat) : Bool :=
  (y % 4 == 0 && y % 100 != 0) || (y % 400 == 0)

def daysInMonth (y : Nat) (m : Nat) : Nat :=
  if m = 2 then (if isLeap y then 29 else 28)
  else if m = 4 ∨ m = 6 ∨ m = 9 ∨ m = 11 then 30
  else 31

def PyDate.valid (d : PyDate) : Bool :=
  1 ≤ d.year && d.year ≤ 9999 &&
  1 ≤ d.month && d.month ≤ 12 &&
  1 ≤ d.day && d.day ≤ daysInMonth d.year d.month

/-- `d - timedelta(days=1)`. -/
def PyDate.pred (d : PyDate) : PyDate :=
  if 1 < d.day then ⟨d.year, d.month, d.day - 1⟩
  else if 1 < d.month then ⟨d.year, d.month - 1, daysInMonth d.year (d.month - 1)⟩
  else ⟨d.year - 1, 12, 31⟩

def pad2 (n : Nat) : String :=
  if n < 10 then "0" ++ toString n else toString n

def pad4 (n : Nat) : String :=
  if n < 10 then "000" ++ toString n
  else if n < 100 then "00" ++ toString n
  else if n < 1000 then "0" ++ toString n
  else toString n

/-- `date.isoformat()`: the YYYY-MM-DD rendering. -/
def PyDate.isoformat (d : PyDate) : String :=
  pad4 d.year ++ "-" ++ pad2 d.month ++ "-" ++ pad2 d.day

/-- Numeric value of a decimal digit character. -/
def digitVal (c : Char) : Nat := c.toNat - 48

/-- `date.fromisoformat`: parse a strict YYYY-MM-DD string (four digit
year, two digit month and day, dash separators), `none` on `ValueError`. -/
def PyDate.fromisoformat (s : String) : Option PyDate :=
  match s.data with
  | [y1, y2, y3, y4, sep1, m1, m2, sep2, d1, d2] =>
    if sep1 = '-' ∧ sep2 = '-' ∧ [y1, y2, y3, y4, m1, m2, d1, d2].all Char.isDigit then
      let dt : PyDate :=
        ⟨digitVal y1 * 1000 + digitVal y2 * 100 + digitVal y3 * 10 + digitVal y4,
         digitVal m1 * 10 + digitVal m2,
         digitVal d1 * 10 + digitVal d2⟩
      if dt.valid then some dt else none
    else none
  | _ => none

/-- Serial day number of a civil date (days since 1970-01-01), the
standard days-from-civil computation used to obtain the weekday. -/
def daysFromCivil (year : Nat) (month : Nat) (day : Nat) : Int :=
  let y : Int := if month ≤ 2 then (year : Int) - 1 else (year : Int)
  let era : Int := (if 0 ≤ y then y else y - 399) / 400
  let yoe : Int := y - era * 400
  let doy : Int := (153 * ((month : Int) + (if 2 < month then -3 else 9)) + 2) / 5 + (day : Int) - 1
  let doe : Int := yoe * 365 + yoe / 4 - yoe / 100 + doy
  era * 146097 + doe - 719468

/-- Full weekday name; day 0 (1970-01-01) was a Thursday. -/
def weekdayName (days : Int) : String :=
  let names := ["Thursday", "Friday", "Saturday", "Sunday", "Monday", "Tuesday", "Wednesday"]
  names.getD ((days % 7 + 7) % 7).toNat "Thursday"

def monthName : Nat → String
  | 1 => "January"
  | 2 => "February"
  | 3 => "March"
  | 4 => "April"
  | 5 => "May"
  | 6 => "June"
  | 7 => "July"
  | 8 => "August"
  | 9 => "September"
  | 10 => "October"
  | 11 => "November"
  | 12 => "December"
  | _ => ""

/-- `date.strftime("%A, %B %d")`: weekday name, month name, zero-padded day. -/
def PyDate.strftimeAB (d : PyDate) : String :=
  weekdayName (daysFromCivil d.year d.month d.day) ++ ", " ++ monthName d.month ++ " " ++ pad2 d.day

/-! ## Persistent state (the SQLite tables `foods` and `meal_logs`) -/

/-- A row of the `foods` table. -/
structure Food where
  id : Int
  name : String
  calories : Int
deriving DecidableEq

/-- A row of the `meal_logs` table, as inserted by the confirm-log
handler (values are taken verbatim from the client payload, so they
are modelled as `JVal`). -/
structure MealLogEntry where
  id : Int
  meal_date : JVal
  food_id : JVal
  meal : JVal
  quantity : JVal
  total_calories : JVal
deriving DecidableEq

/-- The database: the two tables plus their autoincrement counters. -/
structure DB where
  foods : List Food := []
  nextFoodId : Int := 1
  mealLogs : List MealLogEntry := []
  nextLogId : Int := 1
deriving DecidableEq

/-- The `details` dict threaded through the confirmation protocol.
Each field is `none` when the key is absent from the dict. -/
structure Details where
  food : Option JVal := none
  meal : Option JVal := none
  quantity : Option JVal := none
  calories : Option JVal := none
  date_keyword : Option JVal := none
  food_id : Option JVal := none
  meal_date : Option JVal := none
  total_calories : Option JVal := none
deriving DecidableEq

/-- A JSON response together with its HTTP status code.  Only the keys
the handlers actually emit are modelled; `none` is an absent key. -/
structure Resp where
  code : Nat
  status : Option String := none
  action : Option String := none
  details : Option Details := none
  response_text : Option String := none
  error : Option String := none
  message : Option String := none
deriving DecidableEq

def validMeals : List String := ["breakfast", "lunch", "dinner", "snack"]

/-! ## Date Resolver (`resolve_meal_date`) -/

/-- `resolve_meal_date(date_keyword)` with the current date passed
explicitly.  A truthy non-string keyword makes Python raise
`AttributeError` on `.lower()`, modelled as `none`. -/
def resolve_meal_date (today : PyDate) (date_keyword : JVal) : Option String :=
  if ¬ date_keyword.truthy then some today.isoformat
  else
    match date_keyword with
    | .str s =>
      if strToLower s = "today" then some today.isoformat
      else if strToLower s = "yesterday" then some today.pred.isoformat
      else some today.isoformat
    | _ => none

/-! ## Food Resolver (`get_or_create_food`) -/

/-- `get_or_create_food(food_name, llm_calories)`: exact-name lookup;
on a miss, insert a new row whose calories are `int(llm_calories)`
when that conversion succeeds and `0` otherwise (`None`, bad string).
Returns `(food_id, canonical_calories, new database)`. -/
def get_or_create_food (food_name : String) (llm_calories : JVal) (db : DB) :
    Int × Int × DB :=
  match db.foods.find? (fun f => f.name == food_name) with
  | some f => (f.id, f.calories, db)
  | none =>
    let calories_to_insert : Int :=
      if llm_calories = .null then 0 else (llm_calories.toIntCoerce).getD 0
    let food_id := db.nextFoodId
    (food_id, calories_to_insert,
      { db with foods := db.foods ++ [⟨food_id, food_name, calories_to_insert⟩],
                nextFoodId := db.nextFoodId + 1 })

/-! ## Readback / confirmation decision (`perform_readback_or_confirmation`) -/

/-- The calorie block of `perform_readback_or_confirmation`: when
`details.get('calories')` is not `None`, try
`int(per_item_calories) * int(quantity)`; `none` models the skipped
assignment when either conversion raises. -/
def calorieCalc (details : Details) : Option Int :=
  let per_item_calories := pyGet details.calories
  let quantity := details.quantity.getD (.int 1)
  if per_item_calories = .null then none
  else
    match per_item_calories.toIntCoerce, quantity.toIntCoerce with
    | some c, some q => some (c * q)
    | _, _ => none

/-- The `calorie_text` string: empty when no total was computed. -/
def calorie_text_of : Option Int → String
  | some total_calories => ", which is about " ++ toString total_calories ++ " calories"
  | none => ""

/-- The `date_text` block: empty for a falsy or malformed or non-string
date, " yesterday" for the previous day, a strftime rendering otherwise. -/
def date_text_of (today : PyDate) (meal_date_str : JVal) : String :=
  if meal_date_str.truthy then
    match meal_date_str with
    | .str s =>
      match PyDate.fromisoformat s with
      | some meal_date_obj =>
        if meal_date_obj = today then ""
        else if meal_date_obj = today.pred then " yesterday"
        else " on " ++ meal_date_obj.strftimeAB
      | none => ""
    | _ => ""
  else ""

/-- The explicit-confirmation response text. -/
def confirm_text (quantity food : JVal) (date_text calorie_text : String) : String :=
  "Did you really have " ++ pyStr quantity ++ " " ++ pyStr food ++ date_text ++
    calorie_text ++ "? Please confirm to log."

/-- The standard readback response text. -/
def readback_text (quantity food meal : JVal) (date_text calorie_text : String) : String :=
  "Got it: " ++ pyStr quantity ++ " " ++ pyStr food ++ " for " ++ pyStr meal ++
    date_text ++ calorie_text ++ ". I'll log this in a moment unless you cancel."

/-- The body of a 200 response from the readback decision. -/
structure ReadbackOut where
  status : String
  action : String
  details : Details
  response_text : String
deriving DecidableEq

/-- `perform_readback_or_confirmation(details)` with the current date
passed explicitly.  `none` models the `TypeError` Python raises at
`quantity > 6` when the quantity is not comparable to an int. -/
def perform_readback_or_confirmation (today : PyDate) (details : Details) :
    Option ReadbackOut :=
  let food := details.food.getD (.str "unknown")
  let meal := details.meal.getD (.str "unknown")
  let quantity := details.quantity.getD (.int 1)
  let meal_date_str := pyGet details.meal_date
  let calcTotal := calorieCalc details
  let details1 := match calcTotal with
    | some total_calories => { details with total_calories := some (.int total_calories) }
    | none => details
  let calorie_text := calorie_text_of calcTotal
  let date_text := date_text_of today meal_date_str
  match pyGtInt quantity 6 with
  | none => none
  | some true =>
    some ⟨"success", "explicit_confirmation_required", details1,
          confirm_text quantity food date_text calorie_text⟩
  | some false =>
    some ⟨"success", "readback_required", details1,
          readback_text quantity food meal date_text calorie_text⟩

/-- A 200 response wrapping a readback decision. -/
def respOfReadback (r : ReadbackOut) : Resp :=
  { code := 200, status := some r.status, action := some r.action,
    details := some r.details, response_text := some r.response_text }

/-! ## Finalize (`handle_confirmed_log`) -/

/-- `handle_confirmed_log(data)` on a request whose `details` key holds
a dict.  `insertOk` models whether the SQLite insert succeeds; the
handler catches `sqlite3.Error` and answers identically either way. -/
def handle_confirmed_log (details : Details) (db : DB) (insertOk : Bool) :
    Resp × DB :=
  let food := details.food.getD (.str "unknown")
  let meal := details.meal.getD (.str "unknown")
  let quantity := details.quantity.getD (.int 1)
  let meal_date := pyGet details.meal_date
  let total_calories := pyGet details.total_calories
  let calorie_text :=
    if total_calories ≠ .null then
      " for a total of " ++ pyStr total_calories ++ " calories"
    else ""
  let db' :=
    if insertOk then
      { db with
        mealLogs := db.mealLogs ++
          [⟨db.nextLogId, meal_date, pyGet details.food_id, meal, quantity, total_calories⟩],
        nextLogId := db.nextLogId + 1 }
    else db
  ({ code := 200, status := some "success", action := some "log_finalized",
     response_text := some ("Done. I've logged " ++ pyStr quantity ++ " " ++ pyStr food ++
       " for " ++ pyStr meal ++ calorie_text ++ ".") },
   db')

/-! ## Meal clarification (`handle_meal_clarification`) -/

/-- `handle_meal_clarification(data)`: lower-case and strip the reply,
cancel when it is not one of the four meals, otherwise write it into
the details and run the readback decision.  `none` models an
uncaught exception (non-string reply, missing details dict). -/
def handle_meal_clarification (today : PyDate) (details : Option Details)
    (meal : JVal) (db : DB) : Option Resp × DB :=
  match meal with
  | .str s =>
    let meal_clarification := strTrim (strToLower s)
    if meal_clarification ∉ validMeals then
      (some { code := 200, status := some "error", action := some "log_cancelled",
              response_text := some ("'" ++ meal_clarification ++
                "' is not a valid meal. Please try logging again.") }, db)
    else
      match details with
      | none => (none, db)
      | some d =>
        let d' := { d with meal := some (.str meal_clarification) }
        match perform_readback_or_confirmation today d' with
        | some rb => (some (respOfReadback rb), db)
        | none => (none, db)
  | _ => (none, db)

/-! ## Initial prompt, actionable branch (`handle_initial_prompt`) -/

/-- `details.get('quantity') or 1`: keep a truthy value, replace a
falsy one (absent, `None`, `0`, `""`, `False`) by the integer 1. -/
def normalize_quantity (quantity : Option JVal) : JVal :=
  let v := pyGet quantity
  if v.truthy then v else .int 1

/-- The `details.update({...})` block of `handle_initial_prompt`:
write the resolved food id and canonical calories, the resolved meal
date, and the defaulted quantity into the details. -/
def normalize_details (details : Details) (food_id canonical_calories : Int)
    (meal_date : String) : Details :=
  { details with
    food_id := some (.int food_id),
    calories := some (.int canonical_calories),
    meal_date := some (.str meal_date),
    quantity := some (normalize_quantity details.quantity) }

/-- The actionable branch of `handle_initial_prompt` (after the intent
extractor returned a `log_meal` intent with the given details).  The
first component is `none` when an exception escapes to the generic
handler (non-string truthy values where Python would raise; a
non-string truthy food name, whose SQL binding is not modelled, is
also folded into this case — no checked claim depends on it). -/
def handle_actionable (db : DB) (today : PyDate) (details : Details) :
    Option Resp × DB :=
  let food_name := pyGet details.food
  if ¬ food_name.truthy then
    (some { code := 400, error := some "AI response missing food name." }, db)
  else
    match food_name with
    | .str name =>
      let r := get_or_create_food name (pyGet details.calories) db
      let db' := r.2.2
      match resolve_meal_date today (pyGet details.date_keyword) with
      | none => (none, db')
      | some meal_date =>
        let details' := normalize_details details r.1 r.2.1 meal_date
        let meal := pyGet details'.meal
        if ¬ meal.truthy ∨ strTrim (strToLower (pyStr meal)) ∉ validMeals then
          (some { code := 200, status := some "success",
                  action := some "meal_clarification_required",
                  details := some details',
                  response_text := some ("Which meal was the " ++ name ++
                    " for? (e.g., breakfast, lunch, dinner, snack)") }, db')
        else
          match perform_readback_or_confirmation today details' with
          | some rb => (some (respOfReadback rb), db')
          | none => (none, db')
    | _ => (none, db)

/-! ## PATCH `/api/foods/(food_id)` (`update_food_entry`) -/

/-- The request body of the food update endpoint. -/
structure FoodBody where
  calories : Option JVal
deriving DecidableEq

/-- `update_food_entry(food_id)`: validate the calories, then run an
unconditional SQL UPDATE — matching zero rows is still a success. -/
def update_food_entry (db : DB) (food_id : Int) (body : Option FoodBody) :
    Resp × DB :=
  match body with
  | none => ({ code := 400, error := some "Missing calories in request body." }, db)
  | some b =>
    match b.calories with
    | none => ({ code := 400, error := some "Missing calories in request body." }, db)
    | some cv =>
      match cv.toIntCoerce with
      | none => ({ code := 400, error := some "Invalid calories format." }, db)
      | some new_calories =>
        if ¬ (0 ≤ new_calories ∧ new_calories ≤ 5000) then
          ({ code := 400, error := some "Calories must be between 0 and 5000." }, db)
        else
          ({ code := 200, status := some "success",
             message := some ("Food entry " ++ toString food_id ++ " updated.") },
           { db with foods := db.foods.map (fun f =>
               if f.id == food_id then { f with calories := new_calories } else f) })

/-! ## PATCH `/api/logs/(meal_date)/entry/(log_id)` (`update_log_entry`) -/

/-- The request body of the log update endpoint.  `none` for the whole
body is a missing or falsy (empty) body; `calories`-style presence of
the `quantity` key is an inner `Option`. -/
structure UpdateLogBody where
  quantity : Option JVal
deriving DecidableEq

/-- `_validate_update_log_request(meal_date, request_data)`: returns
`(error_message, new_quantity)`. -/
def _validate_update_log_request (meal_date : String) (body : Option UpdateLogBody) :
    Option String × Option Int :=
  match PyDate.fromisoformat meal_date with
  | none => (some "Invalid date format in URL. Use YYYY-MM-DD.", none)
  | some _ =>
    match body with
    | none => (some "Missing quantity in request body.", none)
    | some b =>
      match b.quantity with
      | none => (some "Missing quantity in request body.", none)
      | some qv =>
        match qv.toIntCoerce with
        | none => (some "Invalid quantity format.", none)
        | some new_quantity =>
          if ¬ (1 ≤ new_quantity ∧ new_quantity ≤ 100) then
            (some "Quantity must be between 1 and 100.", none)
          else (none, some new_quantity)

/-- `update_log_entry(meal_date, log_id)`: validate, fetch the entry by
id (404 when absent), reject a date mismatch, recompute the total from
the canonical per-item calories and update the row.  The validator
never returns `(none, none)`; that arm is unreachable. -/
def update_log_entry (db : DB) (meal_date : String) (log_id : Int)
    (body : Option UpdateLogBody) : Resp × DB :=
  match _validate_update_log_request meal_date body with
  | (some error_message, _) => ({ code := 400, error := some error_message }, db)
  | (none, none) => ({ code := 500, error := some "unreachable" }, db)
  | (none, some new_quantity) =>
    match db.mealLogs.find? (fun e => e.id == log_id) with
    | none => ({ code := 404, error := some "Log entry not found." }, db)
    | some entry =>
      if entry.meal_date ≠ .str meal_date then
        ({ code := 400, error := some "Log entry does not belong to the specified date." }, db)
      else
        match db.foods.find? (fun f => JVal.int f.id == entry.food_id) with
        | none =>
          ({ code := 500,
             error := some "Associated food item not found, cannot update calories." }, db)
        | some food_row =>
          let new_total_calories := food_row.calories * new_quantity
          ({ code := 200, status := some "success",
             message := some ("Log entry " ++ toString log_id ++ " updated.") },
           { db with mealLogs := db.mealLogs.map (fun e =>
               if e.id == log_id then
                 { e with quantity := .int new_quantity,
                          total_calories := .int new_total_calories }
               else e) })

/-! ## Concrete inputs used by counterexamples and witnesses -/

/-- A normalized details dict as produced by the initial-prompt flow. -/
def dEx : Details :=
  { food := some (.str "egg"), meal := some (.str "breakfast"),
    quantity := some (.int 2), calories := some (.int 70),
    food_id := some (.int 1), meal_date := some (.str "2024-06-01") }

/-- A database with one food and one log entry dated 2024-06-01. -/
def dbEx : DB :=
  { foods := [⟨1, "egg", 70⟩], nextFoodId := 2,
    mealLogs := [⟨1, .str "2024-06-01", .int 1, .str "lunch", .int 1, .int 70⟩],
    nextLogId := 2 }

/-! ## Helper lemmas -/

/-- The calorie block, for an integer quantity: defined exactly when the
per-item calories convert, and then equal to their product. -/
theorem calorieCalc_of_int (d : Details) (q : Int) (hq : d.quantity = some (.int q)) :
    calorieCalc d = ((pyGet d.calories).toIntCoerce).map (fun c => c * q) := by
  unfold calorieCalc
  rw [hq]
  by_cases hnull : pyGet d.calories = .null
  · simp [hnull, JVal.toIntCoerce]
  · simp only [Option.getD_some, if_neg hnull]
    cases hc : (pyGet d.calories).toIntCoerce <;> simp [JVal.toIntCoerce]

/-- The readback decision, for an integer quantity: never raises, and the
action is decided by the quantity alone. -/
theorem perform_readback_of_int (today : PyDate) (d : Details) (q : Int)
    (hq : d.quantity = some (.int q)) :
    perform_readback_or_confirmation today d =
      (let details1 := match calorieCalc d with
        | some t => { d with total_calories := some (.int t) }
        | none => d
       let ct := calorie_text_of (calorieCalc d)
       let dt := date_text_of today (pyGet d.meal_date)
       if 6 < q then
         some ⟨"success", "explicit_confirmation_required", details1,
               confirm_text (.int q) (d.food.getD (.str "unknown")) dt ct⟩
       else
         some ⟨"success", "readback_required", details1,
               readback_text (.int q) (d.food.getD (.str "unknown"))
                 (d.meal.getD (.str "unknown")) dt ct⟩) := by
  unfold perform_readback_or_confirmation
  rw [hq]
  by_cases h6 : 6 < q <;> simp [pyGtInt, h6, Option.getD_some]

/-! ## C1 -/

/-- C1: for a details dict whose quantity is the integer `q`, the readback
decision answers `explicit_confirmation_required` when `q > 6` and
`readback_required` when `1 ≤ q ≤ 6`. -/
theorem C1_quantity_thresholds (today : PyDate) (d : Details) (q : Int)
    (hq : d.quantity = some (.int q)) :
    (6 < q → (perform_readback_or_confirmation today d).map (fun r => r.action)
        = some "explicit_confirmation_required") ∧
    (1 ≤ q ∧ q ≤ 6 → (perform_readback_or_confirmation today d).map (fun r => r.action)
        = some "readback_required") := by
  rw [perform_readback_of_int today d q hq]
  constructor
  · intro h6
    simp [h6]
  · rintro ⟨h1, h2⟩
    have h6 : ¬ 6 < q := by omega
    simp [h6]

/-- C1 witness: the thresholds evaluated at quantities 8 and 2. -/
theorem C1_quantity_thresholds_witness :
    ((perform_readback_or_confirmation ⟨2024, 6, 1⟩ { dEx with quantity := some (.int 8) }).map
        (fun r => r.action) = some "explicit_confirmation_required") ∧
    ((perform_readback_or_confirmation ⟨2024, 6, 1⟩ dEx).map
        (fun r => r.action) = some "readback_required") :=
  ⟨(C1_quantity_thresholds ⟨2024, 6, 1⟩ { dEx with quantity := some (.int 8) } 8 rfl).1
      (by decide),
   (C1_quantity_thresholds ⟨2024, 6, 1⟩ dEx 2 rfl).2 (by decide)⟩

/-! ## C2 -/

/-- C2 counterexample: the string "five" is non-numeric (Python `int`
raises on it), yet normalization keeps it: the normalized quantity is
the string "five", not the integer 1.  The code defaults the quantity
with `or 1`, which replaces only falsy values; a truthy non-numeric
value passes through. -/
theorem C2_counterexample :
    (JVal.str "five").toIntCoerce = none ∧
    (normalize_details { food := some (.str "egg"), quantity := some (.str "five") }
        1 70 "2024-06-01").quantity = some (.str "five") ∧
    some (JVal.str "five") ≠ some (JVal.int 1) := by
  refine ⟨by decide, by decide, by decide⟩

/-- C2 (amended): during normalization of an actionable intent, whenever
the quantity field is absent or falsy (Python None, 0, empty string,
False), the normalized details have quantity equal to the integer 1;
a truthy non-numeric quantity is kept unchanged. -/
theorem C2_falsy_quantity_defaults_to_one (d : Details) (food_id canonical : Int)
    (meal_date : String) (h : (pyGet d.quantity).truthy = false) :
    (normalize_details d food_id canonical meal_date).quantity = some (.int 1) := by
  simp [normalize_details, normalize_quantity, h]

/-- C2 witness: an absent quantity normalizes to the integer 1. -/
theorem C2_falsy_quantity_defaults_to_one_witness :
    (normalize_details { food := some (.str "egg") } 1 70 "2024-06-01").quantity
      = some (.int 1) :=
  C2_falsy_quantity_defaults_to_one { food := some (.str "egg") } 1 70 "2024-06-01"
    (by decide)

/-! ## C3 -/

set_option maxRecDepth 4000 in
/-- C3: in the readback decision over details with an integer quantity
and no pre-set total, `total_calories` is set and equals
`per_item_calories * quantity` exactly when the per-item calories
convert to an integer; otherwise `total_calories` stays unset and the
response text is built with an empty calorie clause. -/
theorem C3_total_calories_iff_valid (today : PyDate) (d : Details) (q : Int)
    (hq : d.quantity = some (.int q)) (ht : d.total_calories = none) :
    ∃ r, perform_readback_or_confirmation today d = some r ∧
      (∀ c, (pyGet d.calories).toIntCoerce = some c →
        r.details.total_calories = some (.int (c * q)) ∧
        r.response_text = (if 6 < q then
            confirm_text (.int q) (d.food.getD (.str "unknown"))
              (date_text_of today (pyGet d.meal_date)) (calorie_text_of (some (c * q)))
          else
            readback_text (.int q) (d.food.getD (.str "unknown")) (d.meal.getD (.str "unknown"))
              (date_text_of today (pyGet d.meal_date)) (calorie_text_of (some (c * q))))) ∧
      ((pyGet d.calories).toIntCoerce = none →
        r.details.total_calories = none ∧
        r.response_text = (if 6 < q then
            confirm_text (.int q) (d.food.getD (.str "unknown"))
              (date_text_of today (pyGet d.meal_date)) ""
          else
            readback_text (.int q) (d.food.getD (.str "unknown")) (d.meal.getD (.str "unknown"))
              (date_text_of today (pyGet d.meal_date)) "")) := by
  rw [perform_readback_of_int today d q hq, calorieCalc_of_int d q hq]
  cases hc : (pyGet d.calories).toIntCoerce with
  | some c =>
    by_cases h6 : 6 < q
    · simp only [h6, Option.map_some, ite_true, if_true]
      refine ⟨_, rfl, ?_, ?_⟩
      · intro c2 hc2
        obtain rfl : c2 = c := (Option.some.inj hc2).symm
        exact ⟨rfl, rfl⟩
      · intro hnone
        exact Option.noConfusion hnone
    · simp only [h6, Option.map_some, ite_false, if_false]
      refine ⟨_, rfl, ?_, ?_⟩
      · intro c2 hc2
        obtain rfl : c2 = c := (Option.some.inj hc2).symm
        exact ⟨rfl, rfl⟩
      · intro hnone
        exact Option.noConfusion hnone
  | none =>
    by_cases h6 : 6 < q
    · simp only [h6, Option.map_none, ite_true, if_true]
      refine ⟨_, rfl, ?_, ?_⟩
      · intro c2 hc2
        exact Option.noConfusion hc2
      · intro hnone
        exact ⟨ht, rfl⟩
    · simp only [h6, Option.map_none, ite_false, if_false]
      refine ⟨_, rfl, ?_, ?_⟩
      · intro c2 hc2
        exact Option.noConfusion hc2
      · intro hnone
        exact ⟨ht, rfl⟩

/-- C3 witness: at 2 units of 70 calories the total 140 is set. -/
theorem C3_total_calories_iff_valid_witness :
    ∃ r, perform_readback_or_confirmation ⟨2024, 6, 1⟩ dEx = some r ∧
      r.details.total_calories = some (.int 140) := by
  obtain ⟨r, hr, hsome, _⟩ := C3_total_calories_iff_valid ⟨2024, 6, 1⟩ dEx 2 rfl rfl
  exact ⟨r, hr, (hsome 70 rfl).1⟩

/-! ## C4 -/

/-- C4: resolving the same food name twice with two different calorie
estimates yields the same food id both times and the first call's
stored calorie value both times; the second call leaves the database
unchanged (the second estimate is discarded), and the value returned by
the first call is exactly the one stored under that name. -/
theorem C4_first_estimate_wins (name : String) (e1 e2 : JVal) (db : DB) :
    (get_or_create_food name e2 (get_or_create_food name e1 db).2.2).1
        = (get_or_create_food name e1 db).1 ∧
    (get_or_create_food name e2 (get_or_create_food name e1 db).2.2).2.1
        = (get_or_create_food name e1 db).2.1 ∧
    (get_or_create_food name e2 (get_or_create_food name e1 db).2.2).2.2
        = (get_or_create_food name e1 db).2.2 ∧
    (get_or_create_food name e1 db).2.2.foods.find? (fun f => f.name == name)
        = some ⟨(get_or_create_food name e1 db).1, name,
                (get_or_create_food name e1 db).2.1⟩ := by
  cases hf : db.foods.find? (fun f => f.name == name) with
  | some f =>
    have hname : f.name = name := by
      have := List.find?_some hf
      simpa using this
    refine ⟨?_, ?_, ?_, ?_⟩ <;> simp [get_or_create_food, hf]
    rw [← hname]
  | none =>
    have hfind : ((db.foods ++
        [Food.mk db.nextFoodId name (if e1 = JVal.null then 0 else e1.toIntCoerce.getD 0)]).find?
          (fun f => f.name == name))
        = some (Food.mk db.nextFoodId name
            (if e1 = JVal.null then 0 else e1.toIntCoerce.getD 0)) := by
      rw [List.find?_append, hf]
      simp
    refine ⟨?_, ?_, ?_, ?_⟩ <;> simp [get_or_create_food, hf, hfind]

/-! ## C5 -/

/-- C5 counterexample: creating a new food from the estimate -50 stores
and returns -50, a negative value — the code applies Python `int` with
a default of 0 but never clamps to a non-negative integer. -/
theorem C5_counterexample :
    (get_or_create_food "burger" (.int (-50)) {}).2.1 = -50 ∧
    (get_or_create_food "burger" (.int (-50)) {}).2.1 < 0 ∧
    (get_or_create_food "burger" (.int (-50)) {}).2.2.foods
      = [{ id := 1, name := "burger", calories := -50 }] := by
  refine ⟨by decide, by decide, by decide⟩

/-- C5 (amended): when the name is not yet in the food dictionary, the
estimate is coerced with Python `int` (0 when missing or invalid, with
no non-negativity clamp, so a negative estimate is stored as is), the
record is created with that coerced value, and it is returned. -/
theorem C5_create_stores_coerced_estimate (name : String) (est : JVal) (db : DB)
    (h : db.foods.find? (fun f => f.name == name) = none) :
    (get_or_create_food name est db).2.1
        = (if est = .null then 0 else est.toIntCoerce.getD 0) ∧
    (get_or_create_food name est db).2.2.foods
        = db.foods ++ [⟨db.nextFoodId, name,
            if est = .null then 0 else est.toIntCoerce.getD 0⟩] := by
  refine ⟨?_, ?_⟩ <;> simp [get_or_create_food, h]

/-- C5 witness: an invalid string estimate creates the food with 0. -/
theorem C5_create_stores_coerced_estimate_witness :
    (get_or_create_food "toast" (.str "bad") ({} : DB)).2.1
        = (if JVal.str "bad" = .null then 0 else (JVal.str "bad").toIntCoerce.getD 0) ∧
    (get_or_create_food "toast" (.str "bad") ({} : DB)).2.2.foods
        = ({} : DB).foods ++ [⟨({} : DB).nextFoodId, "toast",
            if JVal.str "bad" = .null then 0 else (JVal.str "bad").toIntCoerce.getD 0⟩] :=
  C5_create_stores_coerced_estimate "toast" (.str "bad") {} (by decide)

/-! ## C6 -/

/-- C6: a clarification reply whose meal string, lower-cased and
trimmed, is not one of the four meals answers `log_cancelled` and
leaves the database untouched (no MealLogEntry insert happens). -/
theorem C6_invalid_clarification_cancels (today : PyDate) (details : Option Details)
    (s : String) (db : DB) (h : strTrim (strToLower s) ∉ validMeals) :
    ((handle_meal_clarification today details (.str s) db).1.map (fun r => r.action)
        = some (some "log_cancelled")) ∧
    (handle_meal_clarification today details (.str s) db).2 = db := by
  refine ⟨?_, ?_⟩ <;> simp [handle_meal_clarification, h]

/-- C6 witness: the reply "brunch" cancels and inserts nothing. -/
theorem C6_invalid_clarification_cancels_witness :
    ((handle_meal_clarification ⟨2024, 6, 1⟩ (some dEx) (.str "brunch") dbEx).1.map
        (fun r => r.action) = some (some "log_cancelled")) ∧
    (handle_meal_clarification ⟨2024, 6, 1⟩ (some dEx) (.str "brunch") dbEx).2 = dbEx :=
  C6_invalid_clarification_cancels ⟨2024, 6, 1⟩ (some dEx) "brunch" dbEx (by decide)

/-! ## C7 -/

/-- C7: the finalize handler answers HTTP 200 with status success and
action `log_finalized` for every details dict and database, whether the
insert succeeds or fails — a storage fault is never surfaced. -/
theorem C7_finalize_always_reports_success (details : Details) (db : DB)
    (insertOk : Bool) :
    (handle_confirmed_log details db insertOk).1.code = 200 ∧
    (handle_confirmed_log details db insertOk).1.status = some "success" ∧
    (handle_confirmed_log details db insertOk).1.action = some "log_finalized" :=
  ⟨rfl, rfl, rfl⟩

/-! ## C8 -/

/-- C8: a successful finalize appends exactly one MealLogEntry carrying
the client-supplied food_id, meal, quantity, meal_date and
total_calories verbatim, with no re-derivation or re-validation. -/
theorem C8_finalize_persists_payload_verbatim (d : Details) (db : DB)
    (fid m q md tc : JVal)
    (hfid : d.food_id = some fid) (hm : d.meal = some m) (hq : d.quantity = some q)
    (hmd : d.meal_date = some md) (htc : d.total_calories = some tc) :
    (handle_confirmed_log d db true).2.mealLogs
      = db.mealLogs ++ [MealLogEntry.mk db.nextLogId md fid m q tc] := by
  simp [handle_confirmed_log, pyGet, hfid, hm, hq, hmd, htc]

/-- C8 witness: finalizing a full payload appends it verbatim. -/
theorem C8_finalize_persists_payload_verbatim_witness :
    (handle_confirmed_log { dEx with total_calories := some (.int 140) } dbEx true).2.mealLogs
      = dbEx.mealLogs ++ [MealLogEntry.mk dbEx.nextLogId (.str "2024-06-01") (.int 1)
          (.str "breakfast") (.int 2) (.int 140)] :=
  C8_finalize_persists_payload_verbatim { dEx with total_calories := some (.int 140) } dbEx
    (.int 1) (.str "breakfast") (.int 2) (.str "2024-06-01") (.int 140)
    rfl rfl rfl rfl rfl

/-! ## C9 -/

/-- C9 counterexample: PATCH on an existing entry whose stored meal_date
2024-06-01 differs from the URL date 2024-06-02 answers 400, not the
404 the claim states. -/
theorem C9_counterexample :
    (update_log_entry dbEx "2024-06-02" 1 (some ⟨some (.int 2)⟩)).1.code = 400 ∧
    ¬ (update_log_entry dbEx "2024-06-02" 1 (some ⟨some (.int 2)⟩)).1.code = 404 :=
  ⟨by decide, by decide⟩

/-- C9 (amended): a quantity outside [1,100] or non-numeric yields 400;
with the validation passed, an entry that is not found yields 404, but
an entry whose stored meal_date differs from the URL date yields 400
(not 404). -/
theorem C9_patch_status_codes (db : DB) (meal_date : String) (log_id : Int)
    (body : Option UpdateLogBody) :
    (∀ qv, body = some ⟨some qv⟩ →
      (∀ q, qv.toIntCoerce = some q → ¬ (1 ≤ q ∧ q ≤ 100)) →
      (update_log_entry db meal_date log_id body).1.code = 400) ∧
    (∀ q, _validate_update_log_request meal_date body = (none, some q) →
      db.mealLogs.find? (fun e => e.id == log_id) = none →
      (update_log_entry db meal_date log_id body).1.code = 404) ∧
    (∀ q entry, _validate_update_log_request meal_date body = (none, some q) →
      db.mealLogs.find? (fun e => e.id == log_id) = some entry →
      entry.meal_date ≠ .str meal_date →
      (update_log_entry db meal_date log_id body).1.code = 400) := by
  refine ⟨?_, ?_, ?_⟩
  · rintro qv rfl hbad
    have hval : ∃ msg, _validate_update_log_request meal_date (some ⟨some qv⟩)
        = (some msg, (none : Option Int)) := by
      unfold _validate_update_log_request
      cases hd : PyDate.fromisoformat meal_date with
      | none => exact ⟨_, rfl⟩
      | some pd =>
        show ∃ msg, (match qv.toIntCoerce with
          | none => ((some "Invalid quantity format." : Option String), (none : Option Int))
          | some new_quantity =>
            if ¬ (1 ≤ new_quantity ∧ new_quantity ≤ 100) then
              (some "Quantity must be between 1 and 100.", none)
            else (none, some new_quantity)) = (some msg, (none : Option Int))
        cases hc : qv.toIntCoerce with
        | none => exact ⟨_, rfl⟩
        | some q =>
          show ∃ msg, (if ¬ (1 ≤ q ∧ q ≤ 100) then
              ((some "Quantity must be between 1 and 100." : Option String), (none : Option Int))
            else (none, some q)) = (some msg, (none : Option Int))
          exact ⟨_, by rw [if_pos (hbad q hc)]⟩
    obtain ⟨msg, hval⟩ := hval
    unfold update_log_entry
    rw [hval]
  · intro q hv hnf
    unfold update_log_entry
    rw [hv]
    simp [hnf]
  · intro q entry hv hf hne
    unfold update_log_entry
    rw [hv]
    simp [hf, hne]

/-- C9 witness: out-of-range quantity gives 400, a missing entry 404,
and a date mismatch 400. -/
theorem C9_patch_status_codes_witness :
    (update_log_entry dbEx "2024-06-01" 1 (some ⟨some (.int 200)⟩)).1.code = 400 ∧
    (update_log_entry dbEx "2024-06-01" 2 (some ⟨some (.int 2)⟩)).1.code = 404 ∧
    (update_log_entry dbEx "2024-06-02" 1 (some ⟨some (.int 2)⟩)).1.code = 400 :=
  ⟨(C9_patch_status_codes dbEx "2024-06-01" 1 (some ⟨some (.int 200)⟩)).1 (.int 200) rfl
      (fun q hq => by cases Option.some.inj hq; decide),
   (C9_patch_status_codes dbEx "2024-06-01" 2 (some ⟨some (.int 2)⟩)).2.1 2 (by decide)
      (by decide),
   (C9_patch_status_codes dbEx "2024-06-02" 1 (some ⟨some (.int 2)⟩)).2.2 2
      (MealLogEntry.mk 1 (.str "2024-06-01") (.int 1) (.str "lunch") (.int 1) (.int 70))
      (by decide) (by decide) (by decide)⟩

/-! ## C10 -/

/-- C10: PATCH on a food id with numeric calories in [0,5000] answers
success even when no Food with that id exists — the update is a silent
no-op on the database, never a 404 or other error. -/
theorem C10_update_absent_food_is_silent_noop (db : DB) (food_id : Int)
    (cv : JVal) (c : Int)
    (hc : cv.toIntCoerce = some c) (hlo : 0 ≤ c) (hhi : c ≤ 5000)
    (hnf : db.foods.find? (fun f => f.id == food_id) = none) :
    (update_food_entry db food_id (some ⟨some cv⟩)).1.code = 200 ∧
    (update_food_entry db food_id (some ⟨some cv⟩)).1.status = some "success" ∧
    (update_food_entry db food_id (some ⟨some cv⟩)).2 = db := by
  have hall := List.find?_eq_none.mp hnf
  have hmap : db.foods.map
      (fun f => if f.id == food_id then { f with calories := c } else f) = db.foods := by
    calc db.foods.map (fun f => if f.id == food_id then { f with calories := c } else f)
        = db.foods.map id := List.map_congr_left (fun f hf => by simp [hall f hf])
      _ = db.foods := List.map_id db.foods
  refine ⟨?_, ?_, ?_⟩ <;>
    simp only [update_food_entry, hc, if_neg (not_not_intro (And.intro hlo hhi))]
  rw [hmap]

/-- C10 witness: updating food id 7 in an empty database succeeds and
changes nothing. -/
theorem C10_update_absent_food_is_silent_noop_witness :
    (update_food_entry ({} : DB) 7 (some ⟨some (.int 100)⟩)).1.code = 200 ∧
    (update_food_entry ({} : DB) 7 (some ⟨some (.int 100)⟩)).1.status = some "success" ∧
    (update_food_entry ({} : DB) 7 (some ⟨some (.int 100)⟩)).2 = ({} : DB) :=
  C10_update_absent_food_is_silent_noop {} 7 (.int 100) 100 rfl (by decide) (by decide) rfl

end MealWhisperer
